import Mathlib

/-!
Shallow embedding of `src/render_client.rs` from the kajiya repository:
the `SdfRenderClient` render client, its persistent `TemporalImage`
resource, the per-frame graph declaration and retirement protocol, and the
pure helpers `cube_indices` and `gen_shader_mouse_state`.

External collaborators of the client (the render-graph engine `rg`, the
GPU backend, the render-pass helpers, dynamic constants and the viewport
builder) are not under `src/`; they are modelled from the spec's interface
descriptions (parts 4.2, 6) and each such definition carries a doc comment
starting `Modelled from the spec:`.

Machine integers are modelled as `Nat` with explicit `% 2 ^ 32` where the
source wraps (`u32::overflowing_add`). `f32` values that feed the mouse
state and clear color are modelled as `Rat`; every scenario checked below
is exact in `f32` as well (divisions of 400 by 800 and 300 by 600).
-/

namespace Kajiya

/-- Rust `vk_sync::AccessType` from the `slingshot` crate: the last-known GPU
access state of a resource. The source uses the variants `Nothing` and
`TransferWrite` explicitly; the remaining variants of the Rust enum are
collapsed into the `other` constructor. -/
inductive AccessType where
  | nothing
  | transferWrite
  | other (n : Nat)
deriving DecidableEq, Repr

/-- Rust `vk::Format` values mentioned in the source. -/
inductive VkFormat where
  | r16Sfloat
  | r16g16b16a16Sfloat
  | d24UnormS8Uint
deriving DecidableEq, Repr

/-- Rust `vk::ImageUsageFlags::STORAGE` bit value. -/
def ImageUsageFlags.storage : Nat := 8

/-- Rust `vk::ImageUsageFlags::SAMPLED` bit value. -/
def ImageUsageFlags.sampled : Nat := 4

/-- Rust `vk::ImageUsageFlags::empty()`. -/
def ImageUsageFlags.empty : Nat := 0

/-- Rust `vk::BufferUsageFlags::INDEX_BUFFER` bit value. -/
def BufferUsageFlags.index_buffer : Nat := 64

/-- Modelled from the spec: `ImageDesc` of the GPU backend (not under
`src/`); descriptors specify format, dimensions and usage flags (part 6). -/
structure ImageDesc where
  format : VkFormat
  extent : List Nat
  usage_flags : Nat
deriving DecidableEq, Repr

/-- Modelled from the spec: `ImageDesc::new_3d` of the backend. -/
def ImageDesc.new_3d (format : VkFormat) (extent : List Nat) : ImageDesc :=
  ⟨format, extent, 0⟩

/-- Modelled from the spec: `ImageDesc::new_2d` of the backend. -/
def ImageDesc.new_2d (format : VkFormat) (extent : List Nat) : ImageDesc :=
  ⟨format, extent, 0⟩

/-- Modelled from the spec: the `.usage(..)` builder method on `ImageDesc`. -/
def ImageDesc.usage (d : ImageDesc) (u : Nat) : ImageDesc :=
  { d with usage_flags := u }

/-- Modelled from the spec: `BufferDesc` of the GPU backend (not under
`src/`): size in bytes and usage flags. -/
structure BufferDesc where
  size : Nat
  usage : Nat
deriving DecidableEq, Repr

/-- Modelled from the spec: a GPU image handle produced by the backend
(`backend::image::Image`, not under `src/`), identified by its descriptor. -/
structure Image where
  desc : ImageDesc
deriving DecidableEq, Repr

/-- Modelled from the spec: a GPU buffer handle produced by the backend
(`backend::buffer::Buffer`, not under `src/`), identified by its descriptor. -/
structure Buffer where
  desc : BufferDesc
deriving DecidableEq, Repr

-- Vertices: bits 0, 1, 2, map to +/- X, Y, Z
def cube_indices : List Nat := Id.run do
  let mut res : List Nat := []
  for tri in [(1, 2, 4), (2, 4, 1), (4, 1, 2)] do
    let (ndim, dim0, dim1) := tri
    for tri2 in [(0, dim1, dim0), (ndim, dim0, dim1)] do
      let (nbit, d0, d1) := tri2
      res := res ++ [nbit, nbit + d0, nbit + d1]
      res := res ++ [nbit + d1, nbit + d0, nbit + d0 + d1]
  return res

/-- Rust `byte_slice_cast::AsByteSlice` on a `Vec<u32>`: the little-endian byte
expansion the source hands to `create_buffer` as initial contents. -/
def as_byte_slice (xs : List Nat) : List Nat :=
  xs.flatMap fun x => [x % 256, x / 2 ^ 8 % 256, x / 2 ^ 16 % 256, x / 2 ^ 24 % 256]

/-- A two-component `f32` vector (`glam::Vec2`), modelled over `Rat`. -/
structure Vec2 where
  x : Rat
  y : Rat
deriving DecidableEq, Repr

def Vec2.new (x y : Rat) : Vec2 := ⟨x, y⟩

/-- Componentwise division, as `glam` implements `/` on `Vec2`. -/
def Vec2.div (a b : Vec2) : Vec2 := ⟨a.x / b.x, a.y / b.y⟩

instance : Div Vec2 := ⟨Vec2.div⟩

/-- Rust `winit::VirtualKeyCode`; only `LShift` is consulted by the source, the
rest are collapsed into `otherKey`. -/
inductive VirtualKeyCode where
  | lShift
  | otherKey (n : Nat)
deriving DecidableEq, Repr

/-- Modelled from the spec: keyboard state of the frame-input snapshot
(`FrameState` lives outside `src/`); part 6 says it supplies modifier-key
state, consumed read-only. -/
structure KeyboardState where
  down : VirtualKeyCode → Bool

def KeyboardState.is_down (ks : KeyboardState) (k : VirtualKeyCode) : Bool :=
  ks.down k

/-- Modelled from the spec: mouse state of the frame-input snapshot:
pointer position and button mask (part 6). -/
structure MouseState where
  pos : Vec2
  button_mask : Nat

/-- Modelled from the spec: the input portion of the frame-input snapshot. -/
structure InputState where
  mouse : MouseState
  keys : KeyboardState

/-- Modelled from the spec: window configuration supplying output surface
dimensions (part 6). -/
structure WindowConfig where
  width : Nat
  height : Nat

/-- Source `window_cfg.dims()`: the two-dimensional extent. -/
def WindowConfig.dims (w : WindowConfig) : List Nat := [w.width, w.height]

/-- Modelled from the spec: camera/view transform of the frame-input
snapshot; opaque to this core, carried as a payload. -/
structure CameraMatrices where
  data : Nat

/-- Modelled from the spec: the per-frame state snapshot (`FrameState`,
defined outside `src/`): output surface dimensions, camera transform,
pointer and key state (part 6). -/
structure FrameState where
  window_cfg : WindowConfig
  input : InputState
  camera_matrices : CameraMatrices

def gen_shader_mouse_state (frame_state : FrameState) : List Rat :=
  let pos := frame_state.input.mouse.pos /
    Vec2.new (frame_state.window_cfg.width : Rat) (frame_state.window_cfg.height : Rat)
  [pos.x,
   pos.y,
   if frame_state.input.mouse.button_mask &&& 1 ≠ 0 then 1 else 0,
   if frame_state.input.keys.is_down VirtualKeyCode.lShift then -1 else 1]

/-- Modelled from the spec: a resource admitted to a Frame Graph Builder
(part 4.2): imported resources are tagged with their state as of entry,
transient (created) resources carry only their descriptor. -/
inductive GraphResource where
  | importedImage (img : Image) (access : AccessType)
  | importedBuffer (buf : Buffer) (access : AccessType)
  | createdImage (desc : ImageDesc)
  | createdBuffer (desc : BufferDesc)
deriving DecidableEq, Repr

/-- Modelled from the spec: `render_passes::SdfRasterBricks` (not under
`src/`): the two transient buffers produced by the brick-meta pass,
referenced by graph-local tokens. -/
structure SdfRasterBricks where
  brick_meta_buffer : Nat
  brick_inst_buffer : Nat
deriving DecidableEq, Repr

/-- Modelled from the spec: `render_passes::RasterSdfData` (not under
`src/`): the graph-local tokens consumed by the SDF rasterization pass. -/
structure RasterSdfData where
  sdf_img : Nat
  brick_inst_buffer : Nat
  brick_meta_buffer : Nat
  cube_index_buffer : Nat
deriving DecidableEq, Repr

/-- Modelled from the spec: a render pass descriptor attachment
(`RenderPassAttachmentDesc`, not under `src/`). -/
structure RenderPassAttachmentDesc where
  format : VkFormat
  garbage : Bool
deriving DecidableEq, Repr

/-- Modelled from the spec: `RenderPassAttachmentDesc::new`. -/
def RenderPassAttachmentDesc.new (format : VkFormat) : RenderPassAttachmentDesc :=
  ⟨format, false⟩

/-- Modelled from the spec: the `.garbage_input()` builder method. -/
def RenderPassAttachmentDesc.garbage_input (a : RenderPassAttachmentDesc) :
    RenderPassAttachmentDesc :=
  { a with garbage := true }

/-- Modelled from the spec: `RenderPassDesc` (not under `src/`). -/
structure RenderPassDesc where
  color_attachments : List RenderPassAttachmentDesc
  depth_attachment : Option RenderPassAttachmentDesc
deriving DecidableEq, Repr

/-- Modelled from the spec: a render pass object created by the backend. -/
structure RenderPass where
  desc : RenderPassDesc
deriving DecidableEq, Repr

/-- Modelled from the spec: the operations the client declares into the
graph (part 4.2, `declare_operation`); each render-pass helper of
`render_passes` (not under `src/`) records one node, consuming graph-local
tokens. `editSdf` carries the clear flag the source passes as
`self.frame_idx == 0`. -/
inductive Pass where
  | clearDepth (img : Nat)
  | editSdf (img : Nat) (clear : Bool)
  | calculateSdfBricksMeta (sdf brickMeta brickInst : Nat)
  | clearColor (img : Nat) (color : List Rat)
  | rasterSdf (render_pass : RenderPass) (depth color : Nat) (data : RasterSdfData)
deriving DecidableEq, Repr

/-- Modelled from the spec: the Frame Graph Builder (`rg::RenderGraph`,
not under `src/`): an ordered sequence of resources and declared
operations; graph-local tokens are indices into `resources`, export
tokens are indices into `exports` (parts 3 and 4.2). -/
structure RenderGraph where
  resources : List GraphResource
  passes : List Pass
  exports : List (Nat × Nat)
deriving DecidableEq, Repr

/-- A fresh, empty Frame Graph Builder, as created at the start of a frame. -/
def RenderGraph.empty : RenderGraph := ⟨[], [], []⟩

/-- Modelled from the spec: `RenderGraph::import_image` admits an
externally-owned image, tagged with its last-known access type; returns a
graph-local token (part 4.2). -/
def RenderGraph.importImage (rg : RenderGraph) (img : Image) (access : AccessType) :
    RenderGraph × Nat :=
  ({ rg with resources := rg.resources ++ [GraphResource.importedImage img access] },
   rg.resources.length)

/-- Modelled from the spec: `RenderGraph::import_buffer`, the buffer
counterpart of image import (part 4.2). -/
def RenderGraph.importBuffer (rg : RenderGraph) (buf : Buffer) (access : AccessType) :
    RenderGraph × Nat :=
  ({ rg with resources := rg.resources ++ [GraphResource.importedBuffer buf access] },
   rg.resources.length)

/-- Modelled from the spec: transient image creation scoped to this graph
(part 4.2, `create_image`). -/
def RenderGraph.createImage (rg : RenderGraph) (desc : ImageDesc) :
    RenderGraph × Nat :=
  ({ rg with resources := rg.resources ++ [GraphResource.createdImage desc] },
   rg.resources.length)

/-- Modelled from the spec: transient buffer creation scoped to this graph. -/
def RenderGraph.createBuffer (rg : RenderGraph) (desc : BufferDesc) :
    RenderGraph × Nat :=
  ({ rg with resources := rg.resources ++ [GraphResource.createdBuffer desc] },
   rg.resources.length)

/-- Modelled from the spec: `RenderGraph::export_image` marks a resource's
final state as externally observable and returns an export token, later
redeemed against the Retirement Report (parts 3 and 4.2). -/
def RenderGraph.exportImage (rg : RenderGraph) (handle : Nat) (usage : Nat) :
    RenderGraph × Nat :=
  ({ rg with exports := rg.exports ++ [(handle, usage)] },
   rg.exports.length)

/-- Modelled from the spec: `render_passes::create_image` (not under
`src/`): declares a transient image on the graph. -/
def render_passes.create_image (rg : RenderGraph) (desc : ImageDesc) :
    RenderGraph × Nat :=
  rg.createImage desc

/-- Modelled from the spec: `render_passes::clear_depth` declares a
depth-clear operation on the graph. -/
def render_passes.clear_depth (rg : RenderGraph) (img : Nat) : RenderGraph :=
  { rg with passes := rg.passes ++ [Pass.clearDepth img] }

/-- Modelled from the spec: `render_passes::edit_sdf` declares the SDF
editing operation; the boolean is the clear/seed flag the client computes
as `frame_idx == 0` (part 4.3, conditional first-frame behavior). -/
def render_passes.edit_sdf (rg : RenderGraph) (img : Nat) (clear : Bool) : RenderGraph :=
  { rg with passes := rg.passes ++ [Pass.editSdf img clear] }

/-- Modelled from the spec: `render_passes::calculate_sdf_bricks_meta`
creates the two transient brick buffers and declares the meta-computation
operation, returning their graph-local tokens. -/
def render_passes.calculate_sdf_bricks_meta (rg : RenderGraph) (sdf : Nat) :
    RenderGraph × SdfRasterBricks :=
  let (rg, brick_meta_buffer) := rg.createBuffer ⟨0, 0⟩
  let (rg, brick_inst_buffer) := rg.createBuffer ⟨0, 0⟩
  ({ rg with passes := rg.passes ++ [Pass.calculateSdfBricksMeta sdf brick_meta_buffer brick_inst_buffer] },
   ⟨brick_meta_buffer, brick_inst_buffer⟩)

/-- Modelled from the spec: `render_passes::clear_color` declares a
color-clear operation with the given clear color. -/
def render_passes.clear_color (rg : RenderGraph) (img : Nat) (color : List Rat) :
    RenderGraph :=
  { rg with passes := rg.passes ++ [Pass.clearColor img color] }

/-- Modelled from the spec: `render_passes::raster_sdf` declares the SDF
rasterization operation over the depth target, color target and the
`RasterSdfData` token bundle. -/
def render_passes.raster_sdf (rg : RenderGraph) (render_pass : RenderPass)
    (depth color : Nat) (data : RasterSdfData) : RenderGraph :=
  { rg with passes := rg.passes ++ [Pass.rasterSdf render_pass depth color data] }

/-- Modelled from the spec: the Retirement Report
(`rg::RetiredRenderGraph`, not under `src/`): maps each export token to
the resource and its final access state after the graph executed (part 3).
The source reads component `.1` of the Rust pair, which is `.2` here. -/
structure RetiredRenderGraph where
  get_image : Nat → Image × AccessType

/-- Source `TemporalImage`: the Persistent GPU Resource Handle — the owned image,
its last-known access state, and the optional pending export token. The
`Arc` shared ownership of the Rust source is erased by the embedding. -/
structure TemporalImage where
  resource : Image
  access_type : AccessType
  last_rg_handle : Option Nat

/-- Source `TemporalImage::new`. -/
def TemporalImage.new (resource : Image) : TemporalImage :=
  { resource := resource
    access_type := AccessType.nothing
    last_rg_handle := none }

/-- Source `SdfRenderClient`: the render client state. `frame_idx` is the `u32`
frame counter, kept as a `Nat` reduced `% 2 ^ 32` by retirement. -/
structure SdfRenderClient where
  raster_simple_render_pass : RenderPass
  sdf_img : TemporalImage
  cube_index_buffer : Buffer
  frame_idx : Nat

/-- Modelled from the spec: the fallible GPU backend interface (part 6):
`create_image`, `create_buffer` (with optional initial contents, here the
byte expansion) and `create_render_pass`; each may fail, modelled as
`Option` (`none` is the allocation error). -/
structure RenderBackend where
  create_image : ImageDesc → Option Image
  create_buffer : BufferDesc → Option (List Nat) → Option Buffer
  create_render_pass : RenderPassDesc → Option RenderPass

def SDF_DIM : Nat := 256

/-- Source `SdfRenderClient::new`: creates the persistent SDF volume image, the
cube index buffer and the raster render pass; any backend failure aborts
construction and surfaces the error (`anyhow::Result` modelled as
`Option`), producing no client. -/
def SdfRenderClient.new (backend : RenderBackend) : Option SdfRenderClient := do
  let sdf_img ← backend.create_image
    ((ImageDesc.new_3d VkFormat.r16Sfloat [SDF_DIM, SDF_DIM, SDF_DIM]).usage
      (ImageUsageFlags.storage ||| ImageUsageFlags.sampled))
  let cube_idx := cube_indices
  let cube_index_buffer ← backend.create_buffer
    { size := cube_idx.length * 4, usage := BufferUsageFlags.index_buffer }
    (some (as_byte_slice cube_idx))
  let raster_simple_render_pass ← backend.create_render_pass
    { color_attachments :=
        [(RenderPassAttachmentDesc.new VkFormat.r16g16b16a16Sfloat).garbage_input]
      depth_attachment := some (RenderPassAttachmentDesc.new VkFormat.d24UnormS8Uint) }
  pure
    { raster_simple_render_pass := raster_simple_render_pass
      sdf_img := TemporalImage.new sdf_img
      cube_index_buffer := cube_index_buffer
      frame_idx := 0 }

/-- Source `SdfRenderClient::prepare_render_graph`: declares the frame's graph.
Returns the updated client (the recorded pending export token is its only
change), the filled graph, and the exported color-texture handle the
source returns. -/
def SdfRenderClient.prepare_render_graph (self : SdfRenderClient)
    (rg : RenderGraph) (frame_state : FrameState) :
    SdfRenderClient × RenderGraph × Nat :=
  let (rg, sdf_img) := rg.importImage self.sdf_img.resource self.sdf_img.access_type
  let (rg, cube_index_buffer) := rg.importBuffer self.cube_index_buffer AccessType.transferWrite
  let (rg, depth_img) := render_passes.create_image rg
    (ImageDesc.new_2d VkFormat.d24UnormS8Uint frame_state.window_cfg.dims)
  let rg := render_passes.clear_depth rg depth_img
  let rg := render_passes.edit_sdf rg sdf_img (self.frame_idx == 0)
  let (rg, sdf_raster_bricks) := render_passes.calculate_sdf_bricks_meta rg sdf_img
  let (rg, tex) := render_passes.create_image rg
    (ImageDesc.new_2d VkFormat.r16g16b16a16Sfloat frame_state.window_cfg.dims)
  let rg := render_passes.clear_color rg tex [1/10, 1/5, 1/2, 1]
  let rg := render_passes.raster_sdf rg self.raster_simple_render_pass depth_img tex
    { sdf_img := sdf_img
      brick_inst_buffer := sdf_raster_bricks.brick_inst_buffer
      brick_meta_buffer := sdf_raster_bricks.brick_meta_buffer
      cube_index_buffer := cube_index_buffer }
  let (rg, sdf_export) := rg.exportImage sdf_img ImageUsageFlags.empty
  let self := { self with sdf_img := { self.sdf_img with last_rg_handle := some sdf_export } }
  let (rg, tex_export) := rg.exportImage tex ImageUsageFlags.sampled
  (self, rg, tex_export)

/-- Modelled from the spec: `ViewConstants` and its builder (the
`viewport` module is not under `src/`): derived from the camera matrices
and the output dimensions. -/
structure ViewConstants where
  camera_matrices : CameraMatrices
  width : Nat
  height : Nat

/-- Modelled from the spec: `ViewConstants::builder` captures its inputs. -/
structure ViewConstantsBuilder where
  camera_matrices : CameraMatrices
  width : Nat
  height : Nat

def ViewConstants.builder (camera_matrices : CameraMatrices) (width height : Nat) :
    ViewConstantsBuilder :=
  ⟨camera_matrices, width, height⟩

def ViewConstantsBuilder.build (b : ViewConstantsBuilder) : ViewConstants :=
  ⟨b.camera_matrices, b.width, b.height⟩

/-- Source `FrameConstants`: the per-frame shader constants the client pushes. -/
structure FrameConstants where
  view_constants : ViewConstants
  mouse : List Rat
  frame_idx : Nat

/-- Modelled from the spec: `DynamicConstants` (not under `src/`): the
per-frame constants buffer; `push` appends a record. -/
structure DynamicConstants where
  data : List FrameConstants

def DynamicConstants.push (dc : DynamicConstants) (fc : FrameConstants) : DynamicConstants :=
  ⟨dc.data ++ [fc]⟩

/-- Source `SdfRenderClient::prepare_frame_constants`: pushes the frame constants;
the client itself is returned unchanged (the Rust method takes `&mut self`
but only reads it). -/
def SdfRenderClient.prepare_frame_constants (self : SdfRenderClient)
    (dynamic_constants : DynamicConstants) (frame_state : FrameState) :
    SdfRenderClient × DynamicConstants :=
  let width := frame_state.window_cfg.width
  let height := frame_state.window_cfg.height
  (self,
   dynamic_constants.push
     { view_constants := (ViewConstants.builder frame_state.camera_matrices width height).build
       mouse := gen_shader_mouse_state frame_state
       frame_idx := self.frame_idx })

/-- Source `SdfRenderClient::retire_render_graph`: if an export token is pending,
takes it and overwrites the SDF image's access type from the retirement
report; then advances the frame counter by `u32::overflowing_add 1`. -/
def SdfRenderClient.retire_render_graph (self : SdfRenderClient)
    (retired_rg : RetiredRenderGraph) : SdfRenderClient :=
  let self :=
    match self.sdf_img.last_rg_handle with
    | some handle =>
        { self with sdf_img :=
            { self.sdf_img with
                access_type := (retired_rg.get_image handle).2
                last_rg_handle := none } }
    | none => self
  { self with frame_idx := (self.frame_idx + 1) % 2 ^ 32 }

/-- Modelled from the spec: the per-frame driver loop (part 5): exactly one
Frame Graph Builder at a time, created fresh each frame, declared by
`prepare_render_graph`, handed to the execution layer, and retired before
the next frame begins. The execution layer's retirement reports are an
environment input, one per frame. `clientAfter c0 fs reports n` is the
client state at the start of frame `n`. -/
def clientAfter (c0 : SdfRenderClient) (fs : Nat → FrameState)
    (reports : Nat → RetiredRenderGraph) : Nat → SdfRenderClient
  | 0 => c0
  | n + 1 =>
      ((clientAfter c0 fs reports n).prepare_render_graph RenderGraph.empty (fs n)).1.retire_render_graph
        (reports n)

/-! Concrete instances used to exercise the definitions. -/

/-- A backend whose three creation operations all succeed. -/
def okBackend : RenderBackend :=
  { create_image := fun d => some ⟨d⟩
    create_buffer := fun d _ => some ⟨d⟩
    create_render_pass := fun d => some ⟨d⟩ }

/-- A backend whose image allocation fails. -/
def failBackend : RenderBackend :=
  { create_image := fun _ => none
    create_buffer := fun d _ => some ⟨d⟩
    create_render_pass := fun d => some ⟨d⟩ }

/-- The client `SdfRenderClient.new okBackend` constructs. -/
def okClient : SdfRenderClient :=
  { raster_simple_render_pass :=
      ⟨{ color_attachments :=
           [(RenderPassAttachmentDesc.new VkFormat.r16g16b16a16Sfloat).garbage_input]
         depth_attachment := some (RenderPassAttachmentDesc.new VkFormat.d24UnormS8Uint) }⟩
    sdf_img := TemporalImage.new
      ⟨(ImageDesc.new_3d VkFormat.r16Sfloat [SDF_DIM, SDF_DIM, SDF_DIM]).usage
        (ImageUsageFlags.storage ||| ImageUsageFlags.sampled)⟩
    cube_index_buffer := ⟨{ size := cube_indices.length * 4, usage := BufferUsageFlags.index_buffer }⟩
    frame_idx := 0 }

/-- Variant of `okClient` with the frame counter at the `u32` maximum. -/
def wrapClient : SdfRenderClient :=
  { okClient with frame_idx := 2 ^ 32 - 1 }

/-- A frame state: 800×600 surface, pointer at (400, 300), no buttons, no keys. -/
def fsBase : FrameState :=
  { window_cfg := ⟨800, 600⟩
    input := { mouse := { pos := Vec2.new 400 300, button_mask := 0 }
               keys := ⟨fun _ => false⟩ }
    camera_matrices := ⟨0⟩ }

/-- Variant of `fsBase` with the primary mouse button held. -/
def fsClick : FrameState :=
  { window_cfg := ⟨800, 600⟩
    input := { mouse := { pos := Vec2.new 400 300, button_mask := 1 }
               keys := ⟨fun _ => false⟩ }
    camera_matrices := ⟨0⟩ }

/-- Variant of `fsBase` with left shift held. -/
def fsShift : FrameState :=
  { window_cfg := ⟨800, 600⟩
    input := { mouse := { pos := Vec2.new 400 300, button_mask := 0 }
               keys := ⟨fun _ => true⟩ }
    camera_matrices := ⟨0⟩ }

/-- A retirement report leaving every export in `TransferWrite` state. -/
def constReport : RetiredRenderGraph :=
  ⟨fun _ => (⟨(ImageDesc.new_3d VkFormat.r16Sfloat [SDF_DIM, SDF_DIM, SDF_DIM]).usage
      (ImageUsageFlags.storage ||| ImageUsageFlags.sampled)⟩, AccessType.transferWrite)⟩

/-- The constant frame-state environment. -/
def constFS : Nat → FrameState := fun _ => fsBase

/-- The constant retirement-report environment. -/
def constReports : Nat → RetiredRenderGraph := fun _ => constReport

/-- An empty dynamic-constants buffer. -/
def someDC : DynamicConstants := ⟨[]⟩

/-! Helper lemmas shared by the claim theorems. -/

/-- Closed form of a frame's graph declaration starting from a fresh
builder: the updated client records export token 0 for the SDF image, the
graph lists the imported and transient resources, the five declared
operations (with the `editSdf` flag `frame_idx == 0`), the two exports,
and the returned color-texture export token is 1. -/
theorem prepare_from_empty (s : SdfRenderClient) (fs : FrameState) :
    s.prepare_render_graph RenderGraph.empty fs =
      ({ s with sdf_img := { s.sdf_img with last_rg_handle := some 0 } },
       { resources :=
           [GraphResource.importedImage s.sdf_img.resource s.sdf_img.access_type,
            GraphResource.importedBuffer s.cube_index_buffer AccessType.transferWrite,
            GraphResource.createdImage (ImageDesc.new_2d VkFormat.d24UnormS8Uint fs.window_cfg.dims),
            GraphResource.createdBuffer ⟨0, 0⟩,
            GraphResource.createdBuffer ⟨0, 0⟩,
            GraphResource.createdImage (ImageDesc.new_2d VkFormat.r16g16b16a16Sfloat fs.window_cfg.dims)]
         passes :=
           [Pass.clearDepth 2,
            Pass.editSdf 0 (s.frame_idx == 0),
            Pass.calculateSdfBricksMeta 0 3 4,
            Pass.clearColor 5 [1/10, 1/5, 1/2, 1],
            Pass.rasterSdf s.raster_simple_render_pass 2 5 ⟨0, 4, 3, 1⟩]
         exports := [(0, ImageUsageFlags.empty), (5, ImageUsageFlags.sampled)] },
       1) :=
  rfl

/-- Unfolding lemma for componentwise `Vec2` division. -/
theorem Vec2.div_def (a b : Vec2) : a / b = ⟨a.x / b.x, a.y / b.y⟩ := rfl

/-- Retirement always advances the frame counter by one, modulo `2 ^ 32`. -/
theorem retire_frame_idx (s : SdfRenderClient) (r : RetiredRenderGraph) :
    (s.retire_render_graph r).frame_idx = (s.frame_idx + 1) % 2 ^ 32 := by
  rcases hl : s.sdf_img.last_rg_handle with _ | handle <;>
    simp [SdfRenderClient.retire_render_graph, hl]

/-- Retirement never touches the render pass, the index buffer, or the
backing SDF image resource. -/
theorem retire_preserves_static (s : SdfRenderClient) (r : RetiredRenderGraph) :
    (s.retire_render_graph r).raster_simple_render_pass = s.raster_simple_render_pass ∧
    (s.retire_render_graph r).cube_index_buffer = s.cube_index_buffer ∧
    (s.retire_render_graph r).sdf_img.resource = s.sdf_img.resource := by
  rcases hl : s.sdf_img.last_rg_handle with _ | handle <;>
    simp [SdfRenderClient.retire_render_graph, hl]

/-! Claim theorems. -/

/-- C2: `cube_indices` is the one fixed 36-element sequence (6 faces × 2
triangles × 3 indices), and every emitted index lies in `[0, 8)`. The
explicit-list equality witnesses that every call returns the same fixed
sequence, since the function is pure. -/
theorem cube_indices_spec :
    cube_indices =
      [0, 4, 2, 2, 4, 6, 1, 3, 5, 5, 3, 7,
       0, 1, 4, 4, 1, 5, 2, 6, 3, 3, 6, 7,
       0, 2, 1, 1, 2, 3, 4, 5, 6, 6, 5, 7] ∧
    cube_indices.length = 36 ∧
    ∀ x ∈ cube_indices, x < 8 := by
  refine ⟨by decide, by decide, by decide⟩

/-- Witness for C2 at a concrete element. -/
theorem cube_indices_spec_witness : (0 : Nat) < 8 :=
  cube_indices_spec.2.2 0 (by decide)

/-- C6: on an 800×600 surface with the pointer at (400, 300), the shader
mouse state is (0.5, 0.5, 0.0, 1.0) when no button and no modifier is
active; with the primary button held the third component is 1.0; with
left shift held the fourth component is -1.0. -/
theorem gen_shader_mouse_state_scenarios (fs : FrameState)
    (hw : fs.window_cfg.width = 800) (hh : fs.window_cfg.height = 600)
    (hp : fs.input.mouse.pos = Vec2.new 400 300) :
    (fs.input.mouse.button_mask &&& 1 = 0 →
       fs.input.keys.is_down VirtualKeyCode.lShift = false →
       gen_shader_mouse_state fs = [1/2, 1/2, 0, 1]) ∧
    (fs.input.mouse.button_mask &&& 1 ≠ 0 →
       (gen_shader_mouse_state fs).getD 2 0 = 1) ∧
    (fs.input.keys.is_down VirtualKeyCode.lShift = true →
       (gen_shader_mouse_state fs).getD 3 0 = -1) := by
  refine ⟨fun hb hk => ?_, fun hb => ?_, fun hk => ?_⟩
  · norm_num [gen_shader_mouse_state, hp, hw, hh, hb, hk, Vec2.div_def, Vec2.new]
  · have hb' : fs.input.mouse.button_mask &&& 1 = 1 := by
      rw [Nat.and_one_is_mod] at hb ⊢
      omega
    norm_num [gen_shader_mouse_state, hp, hw, hh, hb', Vec2.div_def, Vec2.new, List.getD]
  · norm_num [gen_shader_mouse_state, hp, hw, hh, hk, Vec2.div_def, Vec2.new, List.getD]

/-- Witness for C6: the three scenarios at concrete frame states. -/
theorem gen_shader_mouse_state_scenarios_witness :
    gen_shader_mouse_state fsBase = [1/2, 1/2, 0, 1] ∧
    (gen_shader_mouse_state fsClick).getD 2 0 = 1 ∧
    (gen_shader_mouse_state fsShift).getD 3 0 = -1 :=
  ⟨(gen_shader_mouse_state_scenarios fsBase rfl rfl rfl).1 (by decide) rfl,
   (gen_shader_mouse_state_scenarios fsClick rfl rfl rfl).2.1 (by decide),
   (gen_shader_mouse_state_scenarios fsShift rfl rfl rfl).2.2 rfl⟩

/-- C8: `SdfRenderClient::new` returns the error exactly when one of the
backing GPU allocations (SDF volume image, cube index buffer) or the
render-pass creation fails; in the `Option` model the failure result is
`none`, so no partially-constructed client exists on failure. -/
theorem new_fails_iff_allocation_fails (b : RenderBackend) :
    SdfRenderClient.new b = none ↔
      (b.create_image
          ((ImageDesc.new_3d VkFormat.r16Sfloat [SDF_DIM, SDF_DIM, SDF_DIM]).usage
            (ImageUsageFlags.storage ||| ImageUsageFlags.sampled)) = none ∨
       b.create_buffer
          { size := cube_indices.length * 4, usage := BufferUsageFlags.index_buffer }
          (some (as_byte_slice cube_indices)) = none ∨
       b.create_render_pass
          { color_attachments :=
              [(RenderPassAttachmentDesc.new VkFormat.r16g16b16a16Sfloat).garbage_input]
            depth_attachment := some (RenderPassAttachmentDesc.new VkFormat.d24UnormS8Uint) } =
         none) := by
  unfold SdfRenderClient.new
  cases hI : b.create_image
      ((ImageDesc.new_3d VkFormat.r16Sfloat [SDF_DIM, SDF_DIM, SDF_DIM]).usage
        (ImageUsageFlags.storage ||| ImageUsageFlags.sampled)) <;>
    cases hB : b.create_buffer
        { size := cube_indices.length * 4, usage := BufferUsageFlags.index_buffer }
        (some (as_byte_slice cube_indices)) <;>
      cases hP : b.create_render_pass
          { color_attachments :=
              [(RenderPassAttachmentDesc.new VkFormat.r16g16b16a16Sfloat).garbage_input]
            depth_attachment := some (RenderPassAttachmentDesc.new VkFormat.d24UnormS8Uint) } <;>
        simp [hI, hB, hP]

/-- Witness for C8 (vacuous-hypothesis check): a backend whose image
allocation fails produces no client. -/
theorem new_fails_iff_allocation_fails_witness : SdfRenderClient.new failBackend = none :=
  (new_fails_iff_allocation_fails failBackend).mpr (Or.inl rfl)

/-- C9: a freshly constructed client starts with `access_type` equal to
"no prior access" (`Nothing`), no pending export token, and frame
counter 0 — so the very first import presents the no-prior-access state. -/
theorem new_initial_state (b : RenderBackend) (c : SdfRenderClient)
    (h : SdfRenderClient.new b = some c) :
    c.sdf_img.access_type = AccessType.nothing ∧
    c.sdf_img.last_rg_handle = none ∧
    c.frame_idx = 0 := by
  unfold SdfRenderClient.new at h
  simp only [Option.bind_eq_bind, Option.bind_eq_some, Option.pure_def,
    Option.some.injEq] at h
  obtain ⟨img, -, buf, -, rp, -, hc⟩ := h
  subst hc
  exact ⟨rfl, rfl, rfl⟩

/-- Witness for C9: the successfully constructed `okClient`. -/
theorem new_initial_state_witness :
    okClient.sdf_img.access_type = AccessType.nothing ∧
    okClient.sdf_img.last_rg_handle = none ∧
    okClient.frame_idx = 0 :=
  new_initial_state okBackend okClient rfl

/-- C10: retiring with no recorded export token leaves the SDF image
handle (in particular its `access_type`) unchanged and still advances the
frame counter by one. -/
theorem retire_without_pending_export (s : SdfRenderClient) (r : RetiredRenderGraph)
    (h : s.sdf_img.last_rg_handle = none) :
    (s.retire_render_graph r).sdf_img = s.sdf_img ∧
    (s.retire_render_graph r).frame_idx = (s.frame_idx + 1) % 2 ^ 32 := by
  refine ⟨?_, retire_frame_idx s r⟩
  simp [SdfRenderClient.retire_render_graph, h]

/-- Witness for C10: `okClient` has no pending token; retiring it leaves
the handle unchanged and bumps the counter. -/
theorem retire_without_pending_export_witness :
    (okClient.retire_render_graph constReport).sdf_img = okClient.sdf_img ∧
    (okClient.retire_render_graph constReport).frame_idx = (okClient.frame_idx + 1) % 2 ^ 32 :=
  retire_without_pending_export okClient constReport rfl

/-- C5: the frame counter is advanced exactly once per completed frame —
by retirement, to `(frame_idx + 1) % 2 ^ 32` — and neither graph
declaration nor constant preparation changes it; at the `u32` maximum it
wraps to 0 while every other piece of client state survives unchanged
(the render pass, the index buffer and the SDF resource are untouched; the
access type update is retirement's regular duty, not corruption). -/
theorem frame_counter_step (s : SdfRenderClient) (r : RetiredRenderGraph)
    (rg : RenderGraph) (fs : FrameState) (dc : DynamicConstants) :
    (s.retire_render_graph r).frame_idx = (s.frame_idx + 1) % 2 ^ 32 ∧
    (s.prepare_render_graph rg fs).1.frame_idx = s.frame_idx ∧
    (s.prepare_frame_constants dc fs).1.frame_idx = s.frame_idx ∧
    (s.frame_idx = 2 ^ 32 - 1 →
      (s.retire_render_graph r).frame_idx = 0 ∧
      (s.retire_render_graph r).raster_simple_render_pass = s.raster_simple_render_pass ∧
      (s.retire_render_graph r).cube_index_buffer = s.cube_index_buffer ∧
      (s.retire_render_graph r).sdf_img.resource = s.sdf_img.resource) := by
  refine ⟨retire_frame_idx s r, rfl, rfl, fun hw => ?_⟩
  obtain ⟨h1, h2, h3⟩ := retire_preserves_static s r
  refine ⟨?_, h1, h2, h3⟩
  rw [retire_frame_idx s r, hw]
  decide

/-- Witness for C5: retiring at the `u32` maximum wraps the counter to 0. -/
theorem frame_counter_step_witness :
    (wrapClient.retire_render_graph constReport).frame_idx = 0 :=
  ((frame_counter_step wrapClient constReport RenderGraph.empty fsBase someDC).2.2.2 rfl).1

/-- C1: over any driven frame sequence (prepare, then retire, each frame,
under arbitrary frame states and retirement reports), the access type with
which the persistent SDF image is imported at the start of frame `n + 1` —
which is exactly `(clientAfter … (n + 1)).sdf_img.access_type`, the value
`prepare_render_graph` passes to `import_image` — equals the access type
frame `n`'s retirement report records for the export token frame `n`
recorded, never any earlier value. -/
theorem round_trip_state_carry (c0 : SdfRenderClient) (fs : Nat → FrameState)
    (reports : Nat → RetiredRenderGraph) (n : Nat) :
    ∃ tok,
      ((clientAfter c0 fs reports n).prepare_render_graph RenderGraph.empty
          (fs n)).1.sdf_img.last_rg_handle = some tok ∧
      (clientAfter c0 fs reports (n + 1)).sdf_img.access_type =
        ((reports n).get_image tok).2 := by
  refine ⟨0, ?_, ?_⟩
  · rw [prepare_from_empty]
  · show (SdfRenderClient.retire_render_graph _ _).sdf_img.access_type = _
    rw [prepare_from_empty]
    rfl

/-- Witness for C1 at a concrete run: after one frame under the
`TransferWrite`-reporting environment, the imported access type is
`TransferWrite`. -/
theorem round_trip_state_carry_witness :
    (clientAfter okClient constFS constReports 1).sdf_img.access_type =
      AccessType.transferWrite := by
  obtain ⟨tok, -, h2⟩ := round_trip_state_carry okClient constFS constReports 0
  rw [h2]
  rfl

/-- C3: at most one pending export token is outstanding per persistent
resource at any time: the token field is an `Option` (a second outstanding
export is unrepresentable), every frame begins with no outstanding token
(so the frame's single export never overlaps an unretired one), the export
during the frame records exactly one token, and retirement clears it. -/
theorem exactly_once_export (c0 : SdfRenderClient) (fs : Nat → FrameState)
    (reports : Nat → RetiredRenderGraph)
    (h : c0.sdf_img.last_rg_handle = none) (n : Nat) :
    (clientAfter c0 fs reports n).sdf_img.last_rg_handle = none ∧
    ((clientAfter c0 fs reports n).prepare_render_graph RenderGraph.empty
        (fs n)).1.sdf_img.last_rg_handle = some 0 ∧
    (((clientAfter c0 fs reports n).prepare_render_graph RenderGraph.empty
          (fs n)).1.retire_render_graph (reports n)).sdf_img.last_rg_handle = none := by
  refine ⟨?_, ?_, ?_⟩
  · cases n with
    | zero => exact h
    | succ n =>
        show (SdfRenderClient.retire_render_graph _ _).sdf_img.last_rg_handle = none
        rw [prepare_from_empty]
        rfl
  · rw [prepare_from_empty]
  · rw [prepare_from_empty]
    rfl

/-- Witness for C3 after one completed frame of a concrete run. -/
theorem exactly_once_export_witness :
    (clientAfter okClient constFS constReports 1).sdf_img.last_rg_handle = none :=
  (exactly_once_export okClient constFS constReports rfl 1).1

/-- C4: the one-time SDF seeding operation (the `edit_sdf` pass with its
clear flag set) is present in the declared graph exactly when the client's
frame counter is 0. -/
theorem first_frame_only_branch (s : SdfRenderClient) (fs : FrameState) :
    (∃ h, Pass.editSdf h true ∈
        (s.prepare_render_graph RenderGraph.empty fs).2.1.passes) ↔
      s.frame_idx = 0 := by
  rw [prepare_from_empty]
  constructor
  · rintro ⟨h, hm⟩
    simp only [List.mem_cons, List.not_mem_nil, or_false] at hm
    rcases hm with hm | hm | hm | hm | hm <;> simp_all
  · intro h0
    exact ⟨0, by simp [h0]⟩

/-- Witness for C4: with the counter at 0 and a concrete frame state, the
presence of the seeding operation forces the counter to be 0 (the reverse
instantiation checks membership concretely). -/
theorem first_frame_only_branch_witness : okClient.frame_idx = 0 :=
  (first_frame_only_branch okClient fsBase).mp ⟨0, by decide⟩

/-- C7: graph declaration reads but never mutates the persistent handle's
`access_type` (and never swaps the backing resource): the import records
exactly the current resource and access type into the graph, and constant
preparation leaves the client untouched entirely — only retirement writes
`access_type`. -/
theorem import_is_read_only (s : SdfRenderClient) (rg : RenderGraph)
    (fs : FrameState) (dc : DynamicConstants) :
    (s.prepare_render_graph rg fs).1.sdf_img.access_type = s.sdf_img.access_type ∧
    (s.prepare_render_graph rg fs).1.sdf_img.resource = s.sdf_img.resource ∧
    GraphResource.importedImage s.sdf_img.resource s.sdf_img.access_type ∈
      (s.prepare_render_graph rg fs).2.1.resources ∧
    (s.prepare_frame_constants dc fs).1 = s := by
  refine ⟨rfl, rfl, ?_, rfl⟩
  simp [SdfRenderClient.prepare_render_graph, RenderGraph.importImage,
    RenderGraph.importBuffer, RenderGraph.createImage, RenderGraph.createBuffer,
    RenderGraph.exportImage, render_passes.create_image, render_passes.clear_depth,
    render_passes.edit_sdf, render_passes.calculate_sdf_bricks_meta,
    render_passes.clear_color, render_passes.raster_sdf]

/-- Witness for C7 on a concrete client and frame state. -/
theorem import_is_read_only_witness :
    (okClient.prepare_render_graph RenderGraph.empty fsBase).1.sdf_img.access_type =
      okClient.sdf_img.access_type :=
  (import_is_read_only okClient RenderGraph.empty fsBase someDC).1

end Kajiya
